import Mathlib

/-!
Verification of the payment saga, payment reconciliation and worker pool of
the BE-Microservice-GO repository, as a shallow embedding in Lean 4.

The Go sources embedded here:
- `services/MidtransService.MapMidtransStatusToPaymentStatus` and
  `services/MidtransService.VerifySignature` (midtrans service file);
- `repository/PaymentRepository.UpdateStatus` (unconditional status write);
- `handlers/PaymentHandler.MidtransCallback`, `CheckPaymentStatus` and
  `CreatePayment` (payment_handler.go), modelled as pure functions from the
  results of their network/store collaborators to the ordered list of durable
  effects they perform plus their outcome;
- `consumers/ValidationConsumer` (validation_consumer.go), modelled as state
  transitions on an association-list correlation table;
- `handlers/WorkerPool` (worker_pool.go), with Go `select` nondeterminism
  resolved by an explicit choice parameter.

Hash functions (SHA-512 hex) are abstracted as an explicit function
parameter; database writes are modelled as effects and assumed to succeed
unless a claim depends on their failure.
-/

namespace BEMicro

/-- Canonical payment status, from `models.PaymentStatus` constants. -/
inductive PaymentStatus
  | PENDING
  | SUCCESS
  | FAILED
  | CANCELLED
  | EXPIRED
deriving DecidableEq, Repr

/-- Embedding of `MidtransService.MapMidtransStatusToPaymentStatus`:
the switch on the gateway transaction status string, defaulting to PENDING. -/
def MapMidtransStatusToPaymentStatus : String → PaymentStatus
  | "pending" => .PENDING
  | "settlement" => .SUCCESS
  | "capture" => .SUCCESS
  | "deny" => .FAILED
  | "cancel" => .CANCELLED
  | "expire" => .EXPIRED
  | _ => .PENDING

/-- C4: `mapStatus` is total (it is a Lean function into `PaymentStatus`),
maps "settlement" and "capture" to SUCCESS, "deny" to FAILED, "cancel" to
CANCELLED, "expire" to EXPIRED, "pending" to PENDING, and every other
string (including the empty string) to PENDING. -/
theorem mapStatus_total_and_table :
    MapMidtransStatusToPaymentStatus "settlement" = .SUCCESS ∧
    MapMidtransStatusToPaymentStatus "capture" = .SUCCESS ∧
    MapMidtransStatusToPaymentStatus "deny" = .FAILED ∧
    MapMidtransStatusToPaymentStatus "cancel" = .CANCELLED ∧
    MapMidtransStatusToPaymentStatus "expire" = .EXPIRED ∧
    MapMidtransStatusToPaymentStatus "pending" = .PENDING ∧
    MapMidtransStatusToPaymentStatus "" = .PENDING ∧
    ∀ s : String, s ≠ "pending" → s ≠ "settlement" → s ≠ "capture" →
      s ≠ "deny" → s ≠ "cancel" → s ≠ "expire" →
      MapMidtransStatusToPaymentStatus s = .PENDING := by
  refine ⟨rfl, rfl, rfl, rfl, rfl, rfl, rfl, ?_⟩
  intro s h1 h2 h3 h4 h5 h6
  unfold MapMidtransStatusToPaymentStatus
  split <;> first | rfl | contradiction

/-- Witness for the quantified part of the mapping-table theorem,
evaluated at the concrete unknown string "authorize". -/
theorem mapStatus_total_and_table_witness :
    MapMidtransStatusToPaymentStatus "authorize" = .PENDING :=
  mapStatus_total_and_table.2.2.2.2.2.2.2 "authorize"
    (by decide) (by decide) (by decide) (by decide) (by decide) (by decide)

/-! ### Validation saga coordinator (validation_consumer.go) -/

/-- Embedding of `consumers.PendingValidation`: one correlation record.
Timestamps are not needed by the claims and are omitted. -/
structure PendingValidation where
  PaymentID : String
  OrderID : String
  UserID : String
  ProductID : String
  Amount : Int
  TotalAmount : Int
  PaymentMethod : String
  Quantity : Int
  ProductValidated : Bool
  UserValidated : Bool
  ProductStatus : String
  UserStatus : String
  ProductMessage : String
  UserMessage : String
  ProductStock : Int
deriving DecidableEq, Repr

/-- The coordinator's correlation table `pendingValidations`, keyed by
payment id, as an association list (all accesses in the source happen under
one mutex, so the sequential map model is faithful). -/
def SagaState := List (String × PendingValidation)

/-- Map lookup `vc.pendingValidations[paymentID]`. -/
def lookupPending (s : SagaState) (paymentID : String) : Option PendingValidation :=
  (List.find? (fun p => p.1 == paymentID) s).map (fun p => p.2)

/-- Map deletion `delete(vc.pendingValidations, paymentID)`. -/
def removePending (s : SagaState) (paymentID : String) : SagaState :=
  List.filter (fun p => !(p.1 == paymentID)) s

/-- Map insertion `vc.pendingValidations[paymentID] = pv`. -/
def setPending (s : SagaState) (paymentID : String) (pv : PendingValidation) : SagaState :=
  (paymentID, pv) :: removePending s paymentID

/-- Events dispatched by the coordinator's completion paths
(`PublishOrderCompleted` and `PublishOrderFailed`), by payment id. -/
inductive SagaEvent
  | orderCompleted (paymentID : String)
  | orderFailed (paymentID : String) (reason : String)
deriving DecidableEq, Repr

/-- Embedding of `ValidationConsumer.checkValidationComplete`: if the record
exists and both replies have arrived, remove it and dispatch exactly one
completion event, success iff both statuses are the OK values. -/
def checkValidationComplete (s : SagaState) (paymentID : String) :
    SagaState × List SagaEvent :=
  match lookupPending s paymentID with
  | none => (s, [])
  | some pending =>
    if !(pending.ProductValidated && pending.UserValidated) then (s, [])
    else
      let s1 := removePending s paymentID
      if pending.ProductStatus = "PRODUCT_OK" ∧ pending.UserStatus = "USER_OK" then
        (s1, [SagaEvent.orderCompleted pending.PaymentID])
      else
        (s1, [SagaEvent.orderFailed pending.PaymentID
          ("Validation failed - Product: " ++ pending.ProductStatus ++
           ", User: " ++ pending.UserStatus)])

/-- The field writes `pending.ProductValidated = true; pending.ProductStatus
= status; ...` performed by `handleProductValidationResponse`. -/
def productReplyUpdate (pv : PendingValidation) (status message : String)
    (stock : Int) : PendingValidation :=
  { pv with
    ProductValidated := true
    ProductStatus := status
    ProductMessage := message
    ProductStock := stock }

/-- The field writes performed by `handleUserValidationResponse`. -/
def userReplyUpdate (pv : PendingValidation) (status message : String) :
    PendingValidation :=
  { pv with
    UserValidated := true
    UserStatus := status
    UserMessage := message }

/-- Embedding of `ValidationConsumer.handleProductValidationResponse`:
ignore replies with an empty payment id or with no pending record, otherwise
set the product-side triple and run the completion check. -/
def handleProductValidationResponse (s : SagaState)
    (paymentID status message : String) (stock : Int) :
    SagaState × List SagaEvent :=
  if paymentID = "" then (s, [])
  else
    match lookupPending s paymentID with
    | none => (s, [])
    | some pending =>
      checkValidationComplete
        (setPending s paymentID (productReplyUpdate pending status message stock))
        paymentID

/-- Embedding of `ValidationConsumer.handleUserValidationResponse`. -/
def handleUserValidationResponse (s : SagaState)
    (paymentID status message : String) :
    SagaState × List SagaEvent :=
  if paymentID = "" then (s, [])
  else
    match lookupPending s paymentID with
    | none => (s, [])
    | some pending =>
      checkValidationComplete
        (setPending s paymentID (userReplyUpdate pending status message))
        paymentID

/-- Embedding of `ValidationConsumer.AddPendingValidation`. -/
def AddPendingValidation (s : SagaState)
    (paymentID orderID userID productID : String) (quantity : Int)
    (amount totalAmount : Int) (paymentMethod : String) : SagaState :=
  setPending s paymentID
    { PaymentID := paymentID, OrderID := orderID, UserID := userID,
      ProductID := productID, Amount := amount, TotalAmount := totalAmount,
      PaymentMethod := paymentMethod, Quantity := quantity,
      ProductValidated := false, UserValidated := false,
      ProductStatus := "", UserStatus := "", ProductMessage := "",
      UserMessage := "", ProductStock := 0 }

theorem lookupPending_setPending (s : SagaState) (pid : String)
    (pv : PendingValidation) : lookupPending (setPending s pid pv) pid = some pv := by
  simp [lookupPending, setPending, List.find?]

theorem lookupPending_removePending (s : SagaState) (pid : String) :
    lookupPending (removePending s pid) pid = none := by
  induction s with
  | nil => rfl
  | cons hd tl ih =>
    by_cases h : hd.1 = pid
    · simp [lookupPending, removePending, h]
    · simp [lookupPending, removePending, List.find?, h]

/-- The completion event dispatched once both statuses are known. -/
def completionEvents (pv : PendingValidation) (ps us : String) : List SagaEvent :=
  if ps = "PRODUCT_OK" ∧ us = "USER_OK" then
    [SagaEvent.orderCompleted pv.PaymentID]
  else
    [SagaEvent.orderFailed pv.PaymentID
      ("Validation failed - Product: " ++ ps ++ ", User: " ++ us)]

theorem checkValidationComplete_incomplete (s : SagaState) (pid : String)
    (pv : PendingValidation) (hl : lookupPending s pid = some pv)
    (h : pv.ProductValidated = false ∨ pv.UserValidated = false) :
    checkValidationComplete s pid = (s, []) := by
  unfold checkValidationComplete
  rw [hl]
  rcases h with h | h <;> simp [h]

theorem checkValidationComplete_complete (s : SagaState) (pid : String)
    (pv : PendingValidation) (hl : lookupPending s pid = some pv)
    (hp : pv.ProductValidated = true) (hu : pv.UserValidated = true) :
    checkValidationComplete s pid =
      (removePending s pid, completionEvents pv pv.ProductStatus pv.UserStatus) := by
  unfold checkValidationComplete
  rw [hl]
  simp only [hp, hu, Bool.and_self, Bool.not_true, if_false, Bool.false_eq_true,
    completionEvents]
  split <;> rfl

/-- C2: for a registered pending validation (both flags unset), for either
ordering of the product and user replies, the coordinator removes the
correlation record and dispatches exactly one completion event: success iff
the product status is PRODUCT_OK and the user status is USER_OK, failure
otherwise (in particular OUT_OF_STOCK then USER_OK yields exactly one
order-failed and no order-completed dispatch). -/
theorem saga_dispatches_exactly_once (s : SagaState) (pid : String)
    (pv : PendingValidation) (hpid : pid ≠ "")
    (hl : lookupPending s pid = some pv)
    (hp : pv.ProductValidated = false) (hu : pv.UserValidated = false)
    (ps pm us um : String) (stock : Int) :
    (let r1 := handleProductValidationResponse s pid ps pm stock
     let r2 := handleUserValidationResponse r1.1 pid us um
     lookupPending r2.1 pid = none ∧
       r1.2 ++ r2.2 = completionEvents pv ps us) ∧
    (let q1 := handleUserValidationResponse s pid us um
     let q2 := handleProductValidationResponse q1.1 pid ps pm stock
     lookupPending q2.1 pid = none ∧
       q1.2 ++ q2.2 = completionEvents pv ps us) := by
  constructor
  · have step1 : handleProductValidationResponse s pid ps pm stock =
        (setPending s pid (productReplyUpdate pv ps pm stock), []) := by
      simp only [handleProductValidationResponse, if_neg hpid, hl]
      exact checkValidationComplete_incomplete _ _ _
        (lookupPending_setPending _ _ _) (Or.inr hu)
    have step2 : handleUserValidationResponse
        (setPending s pid (productReplyUpdate pv ps pm stock)) pid us um =
        (removePending
          (setPending (setPending s pid (productReplyUpdate pv ps pm stock)) pid
            (userReplyUpdate (productReplyUpdate pv ps pm stock) us um)) pid,
         completionEvents pv ps us) := by
      simp only [handleUserValidationResponse, if_neg hpid, lookupPending_setPending]
      exact checkValidationComplete_complete _ _ _
        (lookupPending_setPending _ _ _) rfl rfl
    simp only [step1, step2]
    exact ⟨lookupPending_removePending _ _, rfl⟩
  · have step1 : handleUserValidationResponse s pid us um =
        (setPending s pid (userReplyUpdate pv us um), []) := by
      simp only [handleUserValidationResponse, if_neg hpid, hl]
      exact checkValidationComplete_incomplete _ _ _
        (lookupPending_setPending _ _ _) (Or.inl hp)
    have step2 : handleProductValidationResponse
        (setPending s pid (userReplyUpdate pv us um)) pid ps pm stock =
        (removePending
          (setPending (setPending s pid (userReplyUpdate pv us um)) pid
            (productReplyUpdate (userReplyUpdate pv us um) ps pm stock)) pid,
         completionEvents pv ps us) := by
      simp only [handleProductValidationResponse, if_neg hpid, lookupPending_setPending]
      exact checkValidationComplete_complete _ _ _
        (lookupPending_setPending _ _ _) rfl rfl
    simp only [step1, step2]
    exact ⟨lookupPending_removePending _ _, rfl⟩

/-- Witness: a concrete run of the exactly-once theorem, with the pending
record registered via `AddPendingValidation`, an OUT_OF_STOCK product reply
followed by a USER_OK user reply, yielding one order-failed dispatch. -/
theorem saga_dispatches_exactly_once_witness :
    (let s := AddPendingValidation [] "p1" "Order_1" "u1" "prod1" 1 100000 102500 "bank_transfer"
     let r1 := handleProductValidationResponse s "p1" "OUT_OF_STOCK" "Insufficient stock" 0
     let r2 := handleUserValidationResponse r1.1 "p1" "USER_OK" "ok"
     lookupPending r2.1 "p1" = none ∧
       r1.2 ++ r2.2 = [SagaEvent.orderFailed "p1"
         "Validation failed - Product: OUT_OF_STOCK, User: USER_OK"]) :=
  (saga_dispatches_exactly_once
    (AddPendingValidation [] "p1" "Order_1" "u1" "prod1" 1 100000 102500 "bank_transfer")
    "p1" _ (by decide) rfl rfl rfl "OUT_OF_STOCK" "Insufficient stock" "USER_OK" "ok" 0).1

/-- C9: a product or user validation reply for a payment id with no pending
record is discarded: the correlation table is unchanged and no event is
dispatched. -/
theorem saga_unknown_reply_discarded (s : SagaState) (pid : String)
    (hl : lookupPending s pid = none)
    (st msg : String) (stock : Int) :
    handleProductValidationResponse s pid st msg stock = (s, []) ∧
    handleUserValidationResponse s pid st msg = (s, []) := by
  constructor
  · unfold handleProductValidationResponse
    by_cases h : pid = "" <;> simp [h, hl]
  · unfold handleUserValidationResponse
    by_cases h : pid = "" <;> simp [h, hl]

/-- Witness: a reply for payment id "ghost" against an empty correlation
table is discarded without any dispatch. -/
theorem saga_unknown_reply_discarded_witness :
    handleProductValidationResponse [] "ghost" "PRODUCT_OK" "m" 3 = ([], []) ∧
    handleUserValidationResponse [] "ghost" "PRODUCT_OK" "m" = ([], []) :=
  saga_unknown_reply_discarded [] "ghost" rfl "PRODUCT_OK" "m" 3

/-! ### Payment reconciliation engine (payment_handler.go, midtrans service,
payment repository)

`MidtransCallback` and `CheckPaymentStatus` are modelled as pure functions
from the handler's inputs — the parsed callback request, the result of
`GetByOrderID`/`GetByID` and the result of `GetPaymentStatus` — to the
ordered list of durable effects performed plus the handler outcome.
Store writes are assumed to succeed; the SHA-512 hex digest used by
`VerifySignature` is abstracted as an explicit function parameter `hash`. -/

/-- The fields of `models.Payment` the reconciliation claims depend on. -/
structure Payment where
  id : String
  orderID : String
  userID : String
  productID : Option String
  amount : Int
  totalAmount : Int
  paymentMethod : String
  status : PaymentStatus
deriving DecidableEq, Repr

/-- The bound fields of `models.MidtransCallbackRequest` used before the
authoritative re-fetch. -/
structure MidtransCallbackRequest where
  orderID : String
  statusCode : String
  grossAmount : String
  signatureKey : String
deriving DecidableEq, Repr

/-- Embedding of `MidtransService.VerifySignature`: recompute the keyed hash
over the ordered concatenation orderID ++ statusCode ++ grossAmount ++
serverKey and compare with the supplied signature. -/
def VerifySignature (hash : String → String) (serverKey : String)
    (orderID statusCode grossAmount signatureKey : String) : Bool :=
  signatureKey == hash (orderID ++ statusCode ++ grossAmount ++ serverKey)

/-- Durable effects performed by the reconciliation handlers, in program
order: repository writes, cache operations and published events. -/
inductive Effect
  | updateStatus (paymentID : String) (st : PaymentStatus)
  | updateMidtransData (paymentID : String)
  | invalidateCache (paymentID orderID userID : String)
  | cacheSet (paymentID : String)
  | publishStatusUpdated (paymentID : String) (oldSt newSt : PaymentStatus)
  | publishPaymentSuccess (paymentID : String)
  | publishStockReduction (productID : String) (quantity : Int)
      (orderID userID : String)
  | publishPaymentFailed (paymentID : String) (st : PaymentStatus)
deriving DecidableEq, Repr

/-- Handler outcome (the HTTP response class returned to the gateway or
client). -/
inductive ReconcileResult
  | invalidSignature
  | paymentNotFound
  | statusFetchFailed
  | processed (newStatus : PaymentStatus)
deriving DecidableEq, Repr

/-- The event cascade of `MidtransCallback`/`CheckPaymentStatus` when the
mapped status differs from the stored one: `PublishPaymentStatusUpdated`,
then `PublishPaymentSuccess` plus `PublishStockReduction` (quantity
hard-coded to 1 when a product id is present) on SUCCESS, or
`PublishPaymentFailed` on FAILED/CANCELLED/EXPIRED. -/
def statusChangeEvents (payment : Payment) (newStatus : PaymentStatus) :
    List Effect :=
  [Effect.publishStatusUpdated payment.id payment.status newStatus] ++
  (if newStatus = .SUCCESS then
    [Effect.publishPaymentSuccess payment.id] ++
    (match payment.productID with
     | some pid => [Effect.publishStockReduction pid 1 payment.orderID payment.userID]
     | none => [])
  else if newStatus = .FAILED ∨ newStatus = .CANCELLED ∨ newStatus = .EXPIRED then
    [Effect.publishPaymentFailed payment.id newStatus]
  else [])

/-- Embedding of `PaymentHandler.MidtransCallback`: verify the signature,
load the payment by order id, re-fetch the authoritative transaction status,
map it, write it unconditionally via `PaymentRepository.UpdateStatus`, merge
gateway fields, invalidate the cache, and publish the event cascade only
when the mapped status differs from the stored one. `findPayment` is the
`GetByOrderID` result and `statusFetch` the `GetPaymentStatus` transaction
status (`none` = failed after retries). -/
def MidtransCallback (hash : String → String) (serverKey : String)
    (req : MidtransCallbackRequest) (findPayment : Option Payment)
    (statusFetch : Option String) : List Effect × ReconcileResult :=
  if !(VerifySignature hash serverKey req.orderID req.statusCode
        req.grossAmount req.signatureKey) then
    ([], .invalidSignature)
  else
    match findPayment with
    | none => ([], .paymentNotFound)
    | some payment =>
      match statusFetch with
      | none => ([], .statusFetchFailed)
      | some ts =>
        let newStatus := MapMidtransStatusToPaymentStatus ts
        let base := [Effect.updateStatus payment.id newStatus,
                     Effect.updateMidtransData payment.id,
                     Effect.invalidateCache payment.id payment.orderID payment.userID]
        if newStatus ≠ payment.status then
          (base ++ statusChangeEvents payment newStatus, .processed newStatus)
        else
          (base, .processed newStatus)

/-- Embedding of `PaymentHandler.CheckPaymentStatus` (the manual poll): load
by payment id, fetch and map the gateway status; only when it differs from
the stored one, write it, merge fields, invalidate cache and publish the
same cascade; in both branches re-read the payment and cache the response. -/
def CheckPaymentStatus (findPayment : Option Payment)
    (statusFetch : Option String) : List Effect × ReconcileResult :=
  match findPayment with
  | none => ([], .paymentNotFound)
  | some payment =>
    match statusFetch with
    | none => ([], .statusFetchFailed)
    | some ts =>
      let newStatus := MapMidtransStatusToPaymentStatus ts
      if newStatus ≠ payment.status then
        ([Effect.updateStatus payment.id newStatus,
          Effect.updateMidtransData payment.id,
          Effect.invalidateCache payment.id payment.orderID payment.userID] ++
         statusChangeEvents payment newStatus ++ [Effect.cacheSet payment.id],
         .processed newStatus)
      else
        ([Effect.cacheSet payment.id], .processed newStatus)

/-- Whether an effect is a published lifecycle event
(payment.status.updated, payment.success, product.stock.reduced,
payment.failed). -/
def isLifecycleEvent : Effect → Bool
  | .publishStatusUpdated _ _ _ => true
  | .publishPaymentSuccess _ => true
  | .publishStockReduction _ _ _ _ => true
  | .publishPaymentFailed _ _ => true
  | _ => false

theorem statusChangeEvents_stock_quantity (payment : Payment)
    (ns : PaymentStatus) (pid : String) (q : Int) (oid uid : String)
    (h : Effect.publishStockReduction pid q oid uid ∈ statusChangeEvents payment ns) :
    q = 1 := by
  unfold statusChangeEvents at h
  rcases List.mem_append.mp h with h | h
  · simp at h
  · split at h
    · rcases List.mem_append.mp h with h | h
      · simp at h
      · split at h <;> simp_all
    · split at h <;> simp_all

/-- C1 (amended): processing a webhook callback or manual status check that
passes signature verification, finds the payment and fetches the gateway
status sets the stored status to the status mapped from the gateway's
report, with no terminal-status guard: the stored status (terminal or not)
is preserved if and only if the gateway reports a status mapping to the
stored one. -/
theorem reconcile_writes_mapped_status (hash : String → String)
    (serverKey : String) (req : MidtransCallbackRequest) (payment : Payment)
    (ts : String)
    (hsig : VerifySignature hash serverKey req.orderID req.statusCode
      req.grossAmount req.signatureKey = true) :
    (MidtransCallback hash serverKey req (some payment) (some ts)).2 =
      .processed (MapMidtransStatusToPaymentStatus ts) ∧
    (CheckPaymentStatus (some payment) (some ts)).2 =
      .processed (MapMidtransStatusToPaymentStatus ts) ∧
    Effect.updateStatus payment.id (MapMidtransStatusToPaymentStatus ts) ∈
      (MidtransCallback hash serverKey req (some payment) (some ts)).1 := by
  refine ⟨?_, ?_, ?_⟩ <;>
    · simp only [MidtransCallback, CheckPaymentStatus, hsig, Bool.not_true,
        Bool.false_eq_true, if_false]
      split <;> simp

/-- Witness for the amended reconciliation theorem: a concrete callback for
a SUCCESS payment with the gateway reporting "expire". -/
theorem reconcile_writes_mapped_status_witness :
    (MidtransCallback (fun _ => "sig") "key"
      { orderID := "Order_1", statusCode := "200",
        grossAmount := "102500.00", signatureKey := "sig" }
      (some { id := "pay1", orderID := "Order_1", userID := "u1",
              productID := some "prod1", amount := 100000,
              totalAmount := 102500, paymentMethod := "bank_transfer",
              status := .SUCCESS })
      (some "expire")).2 = .processed .EXPIRED :=
  (reconcile_writes_mapped_status (fun _ => "sig") "key"
    { orderID := "Order_1", statusCode := "200",
      grossAmount := "102500.00", signatureKey := "sig" }
    { id := "pay1", orderID := "Order_1", userID := "u1",
      productID := some "prod1", amount := 100000, totalAmount := 102500,
      paymentMethod := "bank_transfer", status := .SUCCESS }
    "expire" (by decide)).1

/-- Counterexample to C1 as stated: a payment stored as SUCCESS (terminal)
whose gateway later reports "expire" has its stored status overwritten to
EXPIRED by the webhook path — the transition out of the terminal status is
accepted. -/
theorem terminal_status_not_guarded_counterexample :
    Effect.updateStatus "pay1" .EXPIRED ∈
      (MidtransCallback (fun _ => "sig") "key"
        { orderID := "Order_1", statusCode := "200",
          grossAmount := "102500.00", signatureKey := "sig" }
        (some { id := "pay1", orderID := "Order_1", userID := "u1",
                productID := some "prod1", amount := 100000,
                totalAmount := 102500, paymentMethod := "bank_transfer",
                status := .SUCCESS })
        (some "expire")).1 ∧
    PaymentStatus.EXPIRED ≠ PaymentStatus.SUCCESS := by
  decide

/-- C3: when the mapped gateway status equals the stored status, neither
reconciliation path publishes a lifecycle event, and the stored status is
re-written (webhook) or left untouched (manual check) with its old value,
so a terminal status is never regressed to PENDING. -/
theorem reconcile_same_status_idempotent (hash : String → String)
    (serverKey : String) (req : MidtransCallbackRequest) (payment : Payment)
    (ts : String)
    (hsig : VerifySignature hash serverKey req.orderID req.statusCode
      req.grossAmount req.signatureKey = true)
    (hsame : MapMidtransStatusToPaymentStatus ts = payment.status) :
    MidtransCallback hash serverKey req (some payment) (some ts) =
      ([Effect.updateStatus payment.id payment.status,
        Effect.updateMidtransData payment.id,
        Effect.invalidateCache payment.id payment.orderID payment.userID],
       .processed payment.status) ∧
    (MidtransCallback hash serverKey req (some payment) (some ts)).1.filter
      (fun e => isLifecycleEvent e) = [] ∧
    CheckPaymentStatus (some payment) (some ts) =
      ([Effect.cacheSet payment.id], .processed payment.status) := by
  refine ⟨?_, ?_, ?_⟩ <;>
    simp [MidtransCallback, CheckPaymentStatus, hsig, hsame, isLifecycleEvent]

/-- Witness: reconciling a PENDING payment while the gateway still reports
"pending" publishes nothing and keeps the status PENDING. -/
theorem reconcile_same_status_idempotent_witness :
    MidtransCallback (fun _ => "sig") "key"
      { orderID := "Order_1", statusCode := "201",
        grossAmount := "102500.00", signatureKey := "sig" }
      (some { id := "pay1", orderID := "Order_1", userID := "u1",
              productID := some "prod1", amount := 100000,
              totalAmount := 102500, paymentMethod := "bank_transfer",
              status := .PENDING })
      (some "pending") =
      ([Effect.updateStatus "pay1" .PENDING,
        Effect.updateMidtransData "pay1",
        Effect.invalidateCache "pay1" "Order_1" "u1"],
       .processed .PENDING) :=
  (reconcile_same_status_idempotent (fun _ => "sig") "key"
    { orderID := "Order_1", statusCode := "201",
      grossAmount := "102500.00", signatureKey := "sig" }
    { id := "pay1", orderID := "Order_1", userID := "u1",
      productID := some "prod1", amount := 100000, totalAmount := 102500,
      paymentMethod := "bank_transfer", status := .PENDING }
    "pending" (by decide) (by decide)).1

/-- C6: the webhook signature check recomputes the keyed hash of the ordered
concatenation order id ++ status code ++ gross amount ++ shared secret and
compares it to the supplied signature; on any mismatch the callback is
rejected with no effects — no store write, no cache change, no event. -/
theorem invalid_signature_rejected (hash : String → String)
    (serverKey : String) (req : MidtransCallbackRequest)
    (findPayment : Option Payment) (statusFetch : Option String)
    (hsig : VerifySignature hash serverKey req.orderID req.statusCode
      req.grossAmount req.signatureKey = false) :
    (∀ orderID statusCode grossAmount signatureKey,
      VerifySignature hash serverKey orderID statusCode grossAmount
          signatureKey = true ↔
        signatureKey = hash (orderID ++ statusCode ++ grossAmount ++ serverKey)) ∧
    MidtransCallback hash serverKey req findPayment statusFetch =
      ([], .invalidSignature) := by
  constructor
  · intro a b c d
    simp [VerifySignature]
  · simp [MidtransCallback, hsig]

/-- Witness: a concrete forged signature is rejected with no effects. -/
theorem invalid_signature_rejected_witness :
    MidtransCallback (fun _ => "expected") "key"
      { orderID := "Order_1", statusCode := "200",
        grossAmount := "102500.00", signatureKey := "forged" }
      (some { id := "pay1", orderID := "Order_1", userID := "u1",
              productID := some "prod1", amount := 100000,
              totalAmount := 102500, paymentMethod := "bank_transfer",
              status := .PENDING })
      (some "settlement") = ([], .invalidSignature) :=
  (invalid_signature_rejected (fun _ => "expected") "key"
    { orderID := "Order_1", statusCode := "200",
      grossAmount := "102500.00", signatureKey := "forged" }
    (some { id := "pay1", orderID := "Order_1", userID := "u1",
            productID := some "prod1", amount := 100000,
            totalAmount := 102500, paymentMethod := "bank_transfer",
            status := .PENDING })
    (some "settlement") (by decide)).2

/-- C10: every product.stock.reduced event published by either
reconciliation path carries quantity exactly 1 (the handlers hard-code the
quantity, ignoring the purchased quantity). -/
theorem stock_reduction_quantity_always_one (hash : String → String)
    (serverKey : String) (req : MidtransCallbackRequest)
    (findPayment : Option Payment) (statusFetch : Option String)
    (pid : String) (q : Int) (oid uid : String) :
    (Effect.publishStockReduction pid q oid uid ∈
      (MidtransCallback hash serverKey req findPayment statusFetch).1 → q = 1) ∧
    (Effect.publishStockReduction pid q oid uid ∈
      (CheckPaymentStatus findPayment statusFetch).1 → q = 1) := by
  constructor
  · intro h
    simp only [MidtransCallback] at h
    split at h
    · simp at h
    · split at h
      · simp at h
      · split at h
        · simp at h
        · split at h
          · rcases List.mem_append.mp h with h | h
            · simp at h
            · exact statusChangeEvents_stock_quantity _ _ _ _ _ _ h
          · simp at h
  · intro h
    simp only [CheckPaymentStatus] at h
    split at h
    · simp at h
    · split at h
      · simp at h
      · split at h
        · rcases List.mem_append.mp h with h | h
          · rcases List.mem_append.mp h with h | h
            · simp at h
            · exact statusChangeEvents_stock_quantity _ _ _ _ _ _ h
          · simp at h
        · simp at h

/-- Witness: a settlement run that does publish a stock reduction carries
quantity 1. -/
theorem stock_reduction_quantity_always_one_witness :
    (1 : Int) = 1 :=
  (stock_reduction_quantity_always_one (fun _ => "sig") "key"
    { orderID := "Order_1", statusCode := "200",
      grossAmount := "102500.00", signatureKey := "sig" }
    (some { id := "pay1", orderID := "Order_1", userID := "u1",
            productID := some "prod1", amount := 100000,
            totalAmount := 102500, paymentMethod := "bank_transfer",
            status := .PENDING })
    (some "settlement") "prod1" 1 "Order_1" "u1").1 (by decide)

/-! ### Payment creation (PaymentHandler.CreatePayment)

Modelled as a pure function from the outcomes of its collaborators — the
user-service fetch, the product-service fetch, the Midtrans charge and the
database insert — to the ordered list of effects performed and the HTTP
outcome. The Go handler builds the payment struct in memory before
charging; the only durable persistence is `paymentRepo.Create`, performed
strictly after `midtransSvc.CreatePayment` returns without error. -/

/-- Product facts used by the creation guards (`IsActive`, `Stock`). -/
structure ProductInfo where
  isActive : Bool
  stock : Int
deriving DecidableEq, Repr

/-- Outcome of the Midtrans charge call; `transient` marks the recognized
505/500/maintenance error signatures. -/
inductive ChargeOutcome
  | ok
  | err (transient : Bool)
deriving DecidableEq, Repr

/-- Effects of the creation path, in program order. -/
inductive CreateEffect
  | chargeAttempt (success : Bool)
  | dbCreate
  | dbUpdateMidtrans
  | cacheSet
  | publishPaymentCreated
  | invalidateUserPaymentsCache
deriving DecidableEq, Repr

/-- HTTP outcome classes of the creation path. -/
inductive CreateResult
  | userFetchFailed
  | productNotFound
  | productInactive
  | outOfStock
  | methodUnavailable
  | chargeFailed
  | dbCreateFailed
  | created
deriving DecidableEq, Repr

/-- Embedding of `PaymentHandler.CreatePayment` (request binding and id
generation elided): fetch user and product, reject inactive or
out-of-stock products, charge Midtrans, and persist the payment row only
after a successful charge; afterwards merge gateway fields, cache, publish
payment.created and invalidate the user's payment-list cache. -/
def CreatePayment (userFetchOk : Bool) (productFetch : Option ProductInfo)
    (charge : ChargeOutcome) (dbCreateOk : Bool) :
    List CreateEffect × CreateResult :=
  if !userFetchOk then ([], .userFetchFailed)
  else
    match productFetch with
    | none => ([], .productNotFound)
    | some product =>
      if !product.isActive then ([], .productInactive)
      else if product.stock ≤ 0 then ([], .outOfStock)
      else
        match charge with
        | .err transient =>
          ([CreateEffect.chargeAttempt false],
           if transient then .methodUnavailable else .chargeFailed)
        | .ok =>
          if !dbCreateOk then
            ([CreateEffect.chargeAttempt true], .dbCreateFailed)
          else
            ([CreateEffect.chargeAttempt true, CreateEffect.dbCreate,
              CreateEffect.dbUpdateMidtrans, CreateEffect.cacheSet,
              CreateEffect.publishPaymentCreated,
              CreateEffect.invalidateUserPaymentsCache], .created)

/-- C5: the payment row is persisted only after a successful charge: an
execution whose charge errors performs no `Create`, and any execution that
performs `Create` first performed a successful charge. -/
theorem persist_only_after_successful_charge (userFetchOk : Bool)
    (productFetch : Option ProductInfo) (charge : ChargeOutcome)
    (dbCreateOk : Bool) :
    (CreateEffect.dbCreate ∈
        (CreatePayment userFetchOk productFetch charge dbCreateOk).1 →
      charge = .ok ∧ CreateEffect.chargeAttempt true ∈
        (CreatePayment userFetchOk productFetch charge dbCreateOk).1) ∧
    (∀ t, charge = .err t →
      CreateEffect.dbCreate ∉
        (CreatePayment userFetchOk productFetch charge dbCreateOk).1) := by
  have heff : (CreatePayment userFetchOk productFetch charge dbCreateOk).1 = [] ∨
      (CreatePayment userFetchOk productFetch charge dbCreateOk).1 =
        [CreateEffect.chargeAttempt false] ∨
      ((CreatePayment userFetchOk productFetch charge dbCreateOk).1 =
        [CreateEffect.chargeAttempt true] ∧ charge = .ok) ∨
      ((CreatePayment userFetchOk productFetch charge dbCreateOk).1 =
        [CreateEffect.chargeAttempt true, CreateEffect.dbCreate,
         CreateEffect.dbUpdateMidtrans, CreateEffect.cacheSet,
         CreateEffect.publishPaymentCreated,
         CreateEffect.invalidateUserPaymentsCache] ∧ charge = .ok) := by
    unfold CreatePayment
    split
    · exact Or.inl rfl
    · split
      · exact Or.inl rfl
      · split
        · exact Or.inl rfl
        · split
          · exact Or.inl rfl
          · split
            · exact Or.inr (Or.inl rfl)
            · split
              · exact Or.inr (Or.inr (Or.inl ⟨rfl, rfl⟩))
              · exact Or.inr (Or.inr (Or.inr ⟨rfl, rfl⟩))
  constructor
  · intro h
    rcases heff with he | he | ⟨he, hc⟩ | ⟨he, hc⟩ <;> rw [he] at h ⊢
    · simp at h
    · simp at h
    · simp at h
    · exact ⟨hc, by simp⟩
  · intro t ht h
    rcases heff with he | he | ⟨he, hc⟩ | ⟨he, hc⟩ <;> rw [he] at h
    · simp at h
    · simp at h
    · simp at h
    · rw [ht] at hc
      exact ChargeOutcome.noConfusion hc

/-- Witness: with a healthy user, an active in-stock product and a charge
that fails transiently, no payment row is created. -/
theorem persist_only_after_successful_charge_witness :
    CreateEffect.dbCreate ∉
      (CreatePayment true (some { isActive := true, stock := 5 })
        (.err true) true).1 :=
  (persist_only_after_successful_charge true
    (some { isActive := true, stock := 5 }) (.err true) true).2 true rfl

/-! ### Bounded worker pool (product-service worker_pool.go)

`SubmitRequest` and `processRequest` use Go `select` statements. A Go
`select` chooses pseudo-randomly among its ready communication cases; that
nondeterminism is resolved here by an explicit Boolean choice parameter
(`pickDone`) that only matters when more than one case is ready. Channel
occupancy is modelled by the queue length against the buffer capacity. -/

/-- The pool state relevant to submission: worker count, the request
channel's buffer capacity and current length, and whether `cancel()` has
been called (shutdown begun). -/
structure WorkerPool where
  workers : Nat
  queueCapacity : Nat
  queueLen : Nat
  ctxCancelled : Bool
deriving DecidableEq, Repr

/-- Embedding of `NewWorkerPool`: the request channel is buffered at twice
the worker count. -/
def NewWorkerPool (workers : Nat) : WorkerPool :=
  { workers := workers, queueCapacity := workers * 2, queueLen := 0,
    ctxCancelled := false }

/-- Outcome of `SubmitRequest`. -/
inductive SubmitResult
  | accepted
  | fullRejection
  | shutdownRejection
deriving DecidableEq, Repr

/-- Embedding of `WorkerPool.SubmitRequest`: a `select` over sending into
the buffered request channel, the cancelled context, and a `default` case.
The send case is ready iff the buffer has space; the done case is ready iff
shutdown has begun; with both ready the runtime picks one (`pickDone`);
with neither ready the `default` case rejects as pool-full. -/
def SubmitRequest (wp : WorkerPool) (pickDone : Bool) :
    WorkerPool × SubmitResult :=
  let canSend := wp.queueLen < wp.queueCapacity
  if canSend ∧ wp.ctxCancelled = true then
    if pickDone then (wp, .shutdownRejection)
    else ({ wp with queueLen := wp.queueLen + 1 }, .accepted)
  else if canSend then ({ wp with queueLen := wp.queueLen + 1 }, .accepted)
  else if wp.ctxCancelled then (wp, .shutdownRejection)
  else (wp, .fullRejection)

/-- C8 (amended): submission is non-blocking with a queue sized at twice
the worker count; a full queue before shutdown is rejected immediately as
pool-full with no growth, and a full queue after shutdown is rejected as
pool-shutting-down; but after shutdown has begun a submission finding free
queue space may still be accepted when the select resolves to the send
case, so the distinct shutdown rejection is only guaranteed when the queue
is full or the select resolves to the cancellation case. -/
theorem submit_backpressure (wp : WorkerPool) (pickDone : Bool) (n : Nat) :
    (NewWorkerPool n).queueCapacity = n * 2 ∧
    (wp.queueCapacity ≤ wp.queueLen → wp.ctxCancelled = false →
      SubmitRequest wp pickDone = (wp, .fullRejection)) ∧
    (wp.queueCapacity ≤ wp.queueLen → wp.ctxCancelled = true →
      SubmitRequest wp pickDone = (wp, .shutdownRejection)) ∧
    (wp.ctxCancelled = true → pickDone = true →
      (SubmitRequest wp pickDone).2 = .shutdownRejection) ∧
    (wp.queueCapacity ≤ wp.queueLen →
      (SubmitRequest wp pickDone).1 = wp) := by
  refine ⟨rfl, ?_, ?_, ?_, ?_⟩
  · intro hfull hc
    simp [SubmitRequest, Nat.not_lt.mpr hfull, hc]
  · intro hfull hc
    simp [SubmitRequest, Nat.not_lt.mpr hfull, hc]
  · intro hc hp
    unfold SubmitRequest
    by_cases hs : wp.queueLen < wp.queueCapacity <;> simp [hs, hc, hp]
  · intro hfull
    simp [SubmitRequest, Nat.not_lt.mpr hfull]
    split <;> simp

/-- A pool of 4 workers with its 8-slot queue full, before shutdown. -/
def examplePoolFull : WorkerPool :=
  { workers := 4, queueCapacity := 8, queueLen := 8, ctxCancelled := false }

/-- A pool of 4 workers with an empty queue, after shutdown has begun. -/
def examplePoolShutdown : WorkerPool :=
  { workers := 4, queueCapacity := 8, queueLen := 0, ctxCancelled := true }

/-- Witness: a pool of 4 workers (capacity 8) with a full queue before
shutdown rejects a submission as pool-full without growing the queue. -/
theorem submit_backpressure_witness :
    SubmitRequest examplePoolFull false = (examplePoolFull, .fullRejection) :=
  (submit_backpressure examplePoolFull false 4).2.1 (by decide) rfl

/-- Counterexample to C8 as stated: after shutdown has begun
(`ctxCancelled = true`) a submission finding free queue space whose select
resolves to the send case is accepted — it does not return the
pool-shutting-down rejection the claim requires. -/
theorem submit_after_shutdown_accepted_counterexample :
    (SubmitRequest examplePoolShutdown false).2 = .accepted ∧
    SubmitResult.accepted ≠ SubmitResult.shutdownRejection := by
  constructor
  · rfl
  · decide

/-- A reply written to the request's reply channel: whether the send was
wrapped in a `select` guarded by the request context (`guarded`), and the
error it carried (`none` = a successful data response). -/
structure Reply where
  guarded : Bool
  err : Option String
deriving DecidableEq, Repr

/-- The observable scheduling of one `processRequest` run: whether the
request context was already cancelled at dequeue, whether it is cancelled
when the reply send executes, and how the reply-send `select` resolves when
both the send and the context's done channel are ready. -/
structure RunSchedule where
  cancelledAtDequeue : Bool
  cancelledAtSend : Bool
  sendPicksDone : Bool
deriving DecidableEq, Repr

/-- Embedding of `WorkerPool.processRequest`: if the request context is
already cancelled at dequeue, send a cancellation-error reply with a bare
(unguarded) channel send; otherwise dispatch on the request type (error
replies when the type-specific handler is unset or the type unknown) and
send the reply inside a `select` against the request context, which sends
nothing when the context's done case wins. Returns the replies sent. -/
def processRequest (handleGetProductsSet handleGetProductByIDSet : Bool)
    (reqType : String) (sched : RunSchedule) : List Reply :=
  if sched.cancelledAtDequeue then
    [{ guarded := false, err := some "request context cancelled" }]
  else
    let response : Option String :=
      match reqType with
      | "get_products" =>
        if handleGetProductsSet then none
        else some "get products handler not set"
      | "get_product_by_id" =>
        if handleGetProductByIDSet then none
        else some "get product by id handler not set"
      | t => some ("unknown request type: " ++ t)
    if sched.cancelledAtSend ∧ sched.sendPicksDone = true then []
    else [{ guarded := true, err := response }]

/-- C7 (amended): a worker sends at most one reply per dequeued request,
and exactly one guarded reply whenever the request's context is not
cancelled; but the early-cancellation reply is sent without a cancellation
guard, and a context cancelled during the guarded send can cause the reply
to be abandoned, so zero replies are possible. -/
theorem worker_reply_discipline (h1 h2 : Bool) (reqType : String)
    (sched : RunSchedule) :
    (processRequest h1 h2 reqType sched).length ≤ 1 ∧
    (sched.cancelledAtDequeue = false → sched.cancelledAtSend = false →
      (processRequest h1 h2 reqType sched).length = 1 ∧
      ∀ r ∈ processRequest h1 h2 reqType sched, r.guarded = true) ∧
    (sched.cancelledAtDequeue = true →
      processRequest h1 h2 reqType sched =
        [{ guarded := false, err := some "request context cancelled" }]) := by
  refine ⟨?_, ?_, ?_⟩
  · unfold processRequest
    split
    · simp
    · split <;> (try split) <;> (try split) <;> simp
  · intro hd hs
    unfold processRequest
    simp [hd, hs]
  · intro hd
    simp [processRequest, hd]

/-- Witness: an uncancelled get_products request with its handler set gets
exactly one guarded reply. -/
theorem worker_reply_discipline_witness :
    (processRequest true true "get_products"
      { cancelledAtDequeue := false, cancelledAtSend := false,
        sendPicksDone := false }).length = 1 :=
  ((worker_reply_discipline true true "get_products"
    { cancelledAtDequeue := false, cancelledAtSend := false,
      sendPicksDone := false }).2.1 rfl rfl).1

/-- Counterexample to C7 as stated: when the request context is cancelled
while the worker is sending the reply and the select resolves to the done
case, the worker sends zero replies, not exactly one; and the reply sent on
the early-cancellation path is an unguarded channel send. -/
theorem worker_zero_replies_counterexample :
    processRequest true true "get_products"
      { cancelledAtDequeue := false, cancelledAtSend := true,
        sendPicksDone := true } = [] ∧
    processRequest true true "get_products"
      { cancelledAtDequeue := true, cancelledAtSend := true,
        sendPicksDone := true } =
      [{ guarded := false, err := some "request context cancelled" }] := by
  constructor <;> rfl

end BEMicro
